/-
Verification of the multi-image collation and extraction pipeline of
`bot.py` (a Telegram profile-extraction bot), via a shallow embedding of
its core functions: `run_ocr`, `structure_text`, `regex_rescue`,
`format_reply`, the album-buffer merge loop, and the debounce-based
submission collator inside `handle_photo`.
-/
import Mathlib

set_option maxRecDepth 4000

/-! ## Python value model

`structure_text` returns whatever `json.loads` produced (any JSON value),
and `regex_rescue` manipulates a Python dict whose values may be arbitrary
JSON values.  `PyVal` models the Python values that can arise from
`json.loads`; floats are carried as their source lexeme (no claim depends
on float arithmetic). -/

inductive PyVal where
  | str : String → PyVal
  | int : Int → PyVal
  | float : String → PyVal
  | bool : Bool → PyVal
  | null : PyVal
  | list : List PyVal → PyVal
  | dict : List (String × PyVal) → PyVal

/-- A Python dict with string keys, as an insertion-ordered association
list with unique keys (the invariant Python dicts maintain). -/
abbrev PyDict := List (String × PyVal)

/-- Python `d[k]` / `d.get(k)` lookup: the value stored at key `k`. -/
def dget? : PyDict → String → Option PyVal
  | [], _ => Option.none
  | (k', v) :: rest, k => if k' = k then some v else dget? rest k

/-- Python `d[k] = v`: update the value at `k` in place, or append a new
entry at the end (insertion order), exactly as Python dicts behave. -/
def dset : PyDict → String → PyVal → PyDict
  | [], k, v => [(k, v)]
  | (k', v') :: rest, k, v =>
    if k' = k then (k', v) :: rest else (k', v') :: dset rest k v

/-- Whether mantissa digits of a float lexeme are all zero (so the float
is falsy, like Python `0.0`, `-0.0`, `0e5`). -/
def float_lexeme_zero (lex : String) : Bool :=
  let m := lex.data.takeWhile (fun c => c ≠ 'e' ∧ c ≠ 'E')
  m.all (fun c => !c.isDigit || c = '0') && m.any (fun c => c.isDigit)

/-- Python falsiness (`not v`) for the values `json.loads` can produce. -/
def falsy : PyVal → Bool
  | .str s => s = ""
  | .int n => n = 0
  | .float lex => float_lexeme_zero lex
  | .bool b => !b
  | .null => true
  | .list xs => xs.isEmpty
  | .dict kvs => kvs.isEmpty

/-- Python `v == "N/A"`: true exactly when `v` is the string `"N/A"`. -/
def is_na (v : PyVal) : Bool :=
  match v with
  | .str s => s = "N/A"
  | _ => false

/-- Models `data.get(k, "N/A") == "N/A"` from `regex_rescue`. -/
def get_is_na (d : PyDict) (k : String) : Bool :=
  match dget? d k with
  | Option.none => true
  | some v => is_na v

/-- Models `not data.get(k)` from the normalization loop of
`regex_rescue`: true when the key is absent or its value is falsy. -/
def get_falsy (d : PyDict) (k : String) : Bool :=
  match dget? d k with
  | Option.none => true
  | some v => falsy v

/-! ## Regex engines

Embeddings of Python `re.search` for the two patterns in `bot.py`:

  EMAIL_RE = `[A-Za-z0-9._%+-]+@[A-Za-z0-9.-]+\.[A-Za-z]{2,}`
  PHONE_RE = `(\+?\d[\d\s\-().]{7,}\d)`

`re.search` returns the leftmost match: starting positions are scanned
from the left, and at each position the backtracking engine matches
greedy quantifiers longest-first.  Character classes are modelled at
ASCII granularity (the `\d`/`\s` classes over the inputs this bot sees). -/

/-- Character class `[\d\s\-().]` of `PHONE_RE`. -/
def phone_class (c : Char) : Bool :=
  c.isDigit || c = ' ' || c = '\t' || c = '\n' || c = '\r' ||
  c = '\x0b' || c = '\x0c' || c = '-' || c = '(' || c = ')' || c = '.'

/-- Whether the character at index `i` of `cs` is a digit. -/
def digit_at (cs : List Char) (i : Nat) : Bool :=
  match cs.get? i with
  | some c => c.isDigit
  | Option.none => false

/-- Greedy backtracking for `[\d\s\-().]{7,}\d`: try consuming `k` class
characters for `k` descending from the maximal run length, requiring at
least 7, and succeed at the largest `k` whose following character is a
digit (the final `\d` of the pattern). -/
def phone_back (cs : List Char) : Nat → Option Nat
  | 0 => Option.none
  | k + 1 =>
    if k + 1 < 7 then Option.none
    else if digit_at cs (k + 1) then some (k + 1)
    else phone_back cs k

/-- Match `\d[\d\s\-().]{7,}\d` at the head of `cs`, returning the
matched characters. -/
def phone_core (cs : List Char) : Option (List Char) :=
  match cs with
  | [] => Option.none
  | c :: rest =>
    if c.isDigit then
      match phone_back rest (rest.takeWhile phone_class).length with
      | some k =>
        match rest.get? k with
        | some d => some (c :: (rest.take k ++ [d]))
        | Option.none => Option.none
      | Option.none => Option.none
    else Option.none

/-- Match `\+?\d[\d\s\-().]{7,}\d` at the head of `cs`: the greedy `\+?`
first consumes a leading `+`, backtracking to the bare pattern if the
rest fails there. -/
def phone_match_at (cs : List Char) : Option (List Char) :=
  match cs with
  | '+' :: rest =>
    match phone_core rest with
    | some r => some ('+' :: r)
    | Option.none => phone_core cs
  | _ => phone_core cs

/-- Leftmost search: try each start position from the left. -/
def phone_search_core : List Char → Option (List Char)
  | [] => Option.none
  | c :: rest =>
    match phone_match_at (c :: rest) with
    | some r => some r
    | Option.none => phone_search_core rest

/-- `PHONE_RE.search(text)`, returning the matched substring. -/
def phone_search (text : String) : Option String :=
  (phone_search_core text.data).map String.mk

/-- Character class `[A-Za-z0-9._%+-]` (local part of `EMAIL_RE`). -/
def email_local_class (c : Char) : Bool :=
  c.isAlpha || c.isDigit || c = '.' || c = '_' || c = '%' || c = '+' || c = '-'

/-- Character class `[A-Za-z0-9.-]` (domain part of `EMAIL_RE`). -/
def email_domain_class (c : Char) : Bool :=
  c.isAlpha || c.isDigit || c = '.' || c = '-'

/-- Length of the run of ASCII letters starting at index `i` of `cs`. -/
def alpha_run_len (cs : List Char) (i : Nat) : Nat :=
  ((cs.drop i).takeWhile Char.isAlpha).length

/-- Greedy backtracking for `[A-Za-z0-9.-]+\.[A-Za-z]{2,}` after the `@`:
try consuming `j` domain characters for `j` descending from the maximal
run length (at least 1), requiring a literal `.` next and then at least
two letters (consumed greedily).  Returns the count of domain characters
consumed together with the letter-run length. -/
def email_dom_back (cs : List Char) : Nat → Option (Nat × Nat)
  | 0 => Option.none
  | j + 1 =>
    if cs.get? (j + 1) = some '.' ∧ 2 ≤ alpha_run_len cs (j + 2) then
      some (j + 1, alpha_run_len cs (j + 2))
    else email_dom_back cs j

/-- Match `[A-Za-z0-9.-]+\.[A-Za-z]{2,}` at the head of `cs`, returning
the number of characters matched. -/
def email_after_at (cs : List Char) : Option Nat :=
  match email_dom_back cs (cs.takeWhile email_domain_class).length with
  | some nt => some (nt.1 + 1 + nt.2)
  | Option.none => Option.none

/-- Greedy backtracking for the local part `[A-Za-z0-9._%+-]+` followed
by `@` and the domain pattern: try consuming `k` local characters for `k`
descending from the maximal run length (at least 1), requiring `@` next
and the domain pattern after it. -/
def email_local_back (cs : List Char) : Nat → Option (List Char)
  | 0 => Option.none
  | k + 1 =>
    if cs.get? (k + 1) = some '@' then
      match email_after_at (cs.drop (k + 2)) with
      | some dlen => some (cs.take (k + 2 + dlen))
      | Option.none => email_local_back cs k
    else email_local_back cs k

/-- Match `EMAIL_RE` at the head of `cs`. -/
def email_match_at (cs : List Char) : Option (List Char) :=
  email_local_back cs (cs.takeWhile email_local_class).length

/-- Leftmost search for `EMAIL_RE`. -/
def email_search_core : List Char → Option (List Char)
  | [] => Option.none
  | c :: rest =>
    match email_match_at (c :: rest) with
    | some r => some r
    | Option.none => email_search_core rest

/-- `EMAIL_RE.search(text)`, returning the matched substring. -/
def email_search (text : String) : Option String :=
  (email_search_core text.data).map String.mk

/-! ## Field Rescuer (`regex_rescue`) -/

/-- The six schema fields, in the order the normalization loop of
`regex_rescue` iterates them. -/
def rescue_fields : List String :=
  ["name", "profession", "current_company", "current_location", "email", "phone"]

/-- One iteration of the normalization loop:
`if not data.get(k): data[k] = "N/A"`. -/
def norm_step (d : PyDict) (k : String) : PyDict :=
  if get_falsy d k then dset d k (.str "N/A") else d

/-- First block of `regex_rescue`: if `data.get("email", "N/A") == "N/A"`,
search the raw text and store the first email match, if any. -/
def email_phase (data : PyDict) (text : String) : PyDict :=
  if get_is_na data "email" then
    match email_search text with
    | some m => dset data "email" (.str m)
    | Option.none => data
  else data

/-- Second block of `regex_rescue`: same for `phone` with `PHONE_RE`. -/
def phone_phase (data : PyDict) (text : String) : PyDict :=
  if get_is_na data "phone" then
    match phone_search text with
    | some m => dset data "phone" (.str m)
    | Option.none => data
  else data

/-- Embeds `regex_rescue(data, text)`: fill `email`/`phone` from the
regexes when the extractor left them at the sentinel (or absent), then
coerce every absent/falsy field to `"N/A"`. -/
def regex_rescue (data : PyDict) (text : String) : PyDict :=
  rescue_fields.foldl norm_step (phone_phase (email_phase data text) text)

/-- A field is present with a truthy (non-falsy) value. -/
def truthy_field (d : PyDict) (k : String) : Bool :=
  match dget? d k with
  | Option.none => false
  | some v => !(falsy v)

/-! ## OCR Adapter (`run_ocr`)

The source has no `try/except`:

    img = Image.open(BytesIO(image_bytes)).convert("RGB")
    output, error = ocr_model.run(img)
    if error:
        return ""
    return output.strip()

`Image.open`/`convert` may raise on undecodable bytes, modelled as the
`decode` collaborator returning `Except.error`; exceptions propagate as
the `Except.error` result of `run_ocr`.  The OCR collaborator returns an
`(output, error_flag)` pair; a set flag yields `""`. -/

/-- Python whitespace as used by `str.strip()`. -/
def py_ws (c : Char) : Bool :=
  c = ' ' || c = '\t' || c = '\n' || c = '\r' || c = '\x0b' || c = '\x0c'

/-- Python `s.strip()`: remove leading and trailing whitespace. -/
def py_strip (s : String) : String :=
  String.mk (((s.data.dropWhile py_ws).reverse.dropWhile py_ws).reverse)

def run_ocr {β γ : Type} (decode : β → Except String γ)
    (model_run : γ → String × Bool) (image_bytes : β) : Except String String :=
  match decode image_bytes with
  | Except.error e => Except.error e
  | Except.ok img =>
    let r := model_run img
    if r.2 then Except.ok "" else Except.ok (py_strip r.1)

/-! ## Reply Formatter (`format_reply`) -/

/-- A complete record as it reaches `format_reply`: all six fields
present, each a string (an extracted value or the sentinel). -/
structure ProfileRecord where
  name : String
  profession : String
  current_company : String
  current_location : String
  email : String
  phone : String

/-- Embeds `format_reply(d)` from the source, literal for literal
(including the Markdown bold markers around the header). -/
def format_reply (d : ProfileRecord) : String :=
  "📌 **Extracted Profile**\n\n" ++
  "👤 Name: " ++ d.name ++ "\n" ++
  "💼 Profession: " ++ d.profession ++ "\n" ++
  "🏢 Company: " ++ d.current_company ++ "\n" ++
  "📍 Location: " ++ d.current_location ++ "\n" ++
  "📧 Email: " ++ d.email ++ "\n" ++
  "📞 Phone: " ++ d.phone

/-- Written from the spec's output-format block: a header line, a blank
line, then the six labeled value lines.  The header is passed in so the
spec's exact header (`📌 Extracted Profile`) and the code's header can
be compared. -/
def spec_reply_template (header : String) (d : ProfileRecord) : String :=
  header ++ "\n\n" ++
  "👤 Name: " ++ d.name ++ "\n" ++
  "💼 Profession: " ++ d.profession ++ "\n" ++
  "🏢 Company: " ++ d.current_company ++ "\n" ++
  "📍 Location: " ++ d.current_location ++ "\n" ++
  "📧 Email: " ++ d.email ++ "\n" ++
  "📞 Phone: " ++ d.phone

/-! ## Merge loop of `handle_photo`

    merged_text = ""
    for _, img_bytes in entries:
        merged_text += "\n" + run_ocr(img_bytes)

The OCR call is abstracted as a function from image bytes to recognized
text (its result for each entry). -/

/-- Embeds the merge loop: entries are `(message, image_bytes)` pairs and
each entry contributes `"\n" + ocr(bytes)`. -/
def merge_loop {μ β : Type} (ocr : β → String) (entries : List (μ × β)) : String :=
  entries.foldl (fun acc e => acc ++ "\n" ++ ocr e.2) ""

/-! ## Submission Collator (`album_buffer` and `handle_photo`)

Per `group_key` state of `album_buffer = defaultdict(list)` together with
the finalize history.  An arrival appends its entry (creating the list
via defaultdict access); after the debounce sleep the same task runs the
completion check:

    if len(album_buffer[group_id]) == 0:
        return
    entries = album_buffer.pop(group_id)

Under asyncio's cooperative scheduling the check-and-pop runs atomically
(no await between them), so it is one step.  Note the length check uses
defaultdict subscripting, which re-creates a popped key with an empty
list.  Traces in which every arrival precedes every check model the
claims' overlapping-debounce-window condition: with a uniform 1.5s delay,
pairwise-overlapping windows mean every arrival happens before the
earliest check fires. -/

/-- State for one `group_key`: `buf = none` means the key is absent from
`album_buffer`; `finals` records the entry list consumed by each
finalize (extraction/reply) that has executed, in order. -/
structure CollatorState (ε : Type) where
  buf : Option (List ε)
  finals : List (List ε)
  deriving DecidableEq

/-- An event for one `group_key`: an arrival appending its entry, or a
post-debounce completion check. -/
inductive CollatorEv (ε : Type) where
  | arrive : ε → CollatorEv ε
  | check : CollatorEv ε
  deriving DecidableEq

/-- One event of `handle_photo` acting on the key's state.  `arrive e`
is `album_buffer[group_id].append(e)` (defaultdict creates the list).
`check` is the post-sleep code: the defaultdict length test re-creates a
popped key as `some []`; a non-empty buffer is popped and finalized. -/
def collator_step {ε : Type} (s : CollatorState ε) : CollatorEv ε → CollatorState ε
  | .arrive e => { s with buf := some (s.buf.getD [] ++ [e]) }
  | .check =>
    match s.buf with
    | Option.none => { s with buf := some [] }
    | some [] => s
    | some l => { buf := Option.none, finals := s.finals ++ [l] }

/-- Run a trace of events from the initial state (key absent, nothing
finalized). -/
def collator_run {ε : Type} (tr : List (CollatorEv ε)) : CollatorState ε :=
  tr.foldl collator_step { buf := Option.none, finals := [] }

/-! ## Profile Extractor response handling (`structure_text`)

The Groq call itself is an external collaborator; the embedding covers
what `structure_text` does with the backend's response text:

    content = res.choices[0].message.content.strip()
    try:
        data = json.loads(content)
    except:
        data = {}
    return data

`json_loads` models Python's `json.loads`: a strict JSON document parser
(accepting the default `NaN`/`Infinity` extensions) that either yields a
value or fails; the bare `except` maps failure to the empty dict. -/

/-- JSON whitespace. -/
def json_ws (c : Char) : Bool :=
  c = ' ' || c = '\t' || c = '\n' || c = '\r'

/-- Skip JSON whitespace. -/
def skip_ws (cs : List Char) : List Char :=
  cs.dropWhile json_ws

/-- Hex digit value. -/
def hex_val (c : Char) : Option Nat :=
  if c.isDigit then some (c.toNat - 48)
  else if 'a' ≤ c ∧ c ≤ 'f' then some (c.toNat - 87)
  else if 'A' ≤ c ∧ c ≤ 'F' then some (c.toNat - 55)
  else Option.none

/-- Value of a `\uXXXX` escape. -/
def hex4 (a b c d : Char) : Option Nat :=
  match hex_val a, hex_val b, hex_val c, hex_val d with
  | some x, some y, some z, some w => some (((x * 16 + y) * 16 + z) * 16 + w)
  | _, _, _, _ => Option.none

/-- Single-character JSON escapes. -/
def esc_char (c : Char) : Option Char :=
  match c with
  | '"' => some '"'
  | '\\' => some '\\'
  | '/' => some '/'
  | 'b' => some '\x08'
  | 'f' => some '\x0c'
  | 'n' => some '\n'
  | 'r' => some '\r'
  | 't' => some '\t'
  | _ => Option.none

/-- Parse the body of a JSON string (after the opening quote), returning
the decoded characters and the rest of the input.  Raw control
characters are rejected, as in strict `json.loads`. -/
def parse_jstring : List Char → Option (List Char × List Char)
  | [] => Option.none
  | '"' :: rest => some ([], rest)
  | '\\' :: 'u' :: a :: b :: c :: d :: rest =>
    match hex4 a b c d with
    | some n =>
      match parse_jstring rest with
      | some p => some (Char.ofNat n :: p.1, p.2)
      | Option.none => Option.none
    | Option.none => Option.none
  | '\\' :: e :: rest =>
    match esc_char e with
    | some c =>
      match parse_jstring rest with
      | some p => some (c :: p.1, p.2)
      | Option.none => Option.none
    | Option.none => Option.none
  | c :: rest =>
    if c.toNat < 32 then Option.none
    else
      match parse_jstring rest with
      | some p => some (c :: p.1, p.2)
      | Option.none => Option.none

/-- Consume a run of decimal digits. -/
def span_digits (cs : List Char) : List Char × List Char :=
  (cs.takeWhile Char.isDigit, cs.dropWhile Char.isDigit)

/-- Numeric value of a digit run. -/
def digits_val (ds : List Char) : Nat :=
  ds.foldl (fun acc c => acc * 10 + (c.toNat - 48)) 0

/-- Parse the optional fraction and exponent after the integer part and
classify the number: ints stay ints, anything with a fraction or
exponent becomes a float carrying its lexeme, exactly as `json.loads`
distinguishes them.  `signchars`/`intchars` are the consumed sign and
integer-part characters. -/
def parse_number_tail (signchars intchars : List Char) (cs : List Char) :
    Option (PyVal × List Char) :=
  let frac :=
    match cs with
    | '.' :: r =>
      let p := span_digits r
      if p.1.isEmpty then ([], cs) else ('.' :: p.1, p.2)
    | _ => ([], cs)
  let fracchars := frac.1
  let cs3 := frac.2
  let ex :=
    match cs3 with
    | e :: r =>
      if e = 'e' ∨ e = 'E' then
        let sgn :=
          match r with
          | s :: rr => if s = '+' ∨ s = '-' then ([s], rr) else (([] : List Char), r)
          | [] => (([] : List Char), r)
        let p := span_digits sgn.2
        if p.1.isEmpty then (([] : List Char), cs3) else (e :: sgn.1 ++ p.1, p.2)
      else (([] : List Char), cs3)
    | [] => (([] : List Char), cs3)
  if fracchars.isEmpty ∧ ex.1.isEmpty then
    some
      (PyVal.int
        (if signchars.isEmpty then (digits_val intchars : Int)
         else -(digits_val intchars : Int)), cs3)
  else some (PyVal.float (String.mk (signchars ++ intchars ++ fracchars ++ ex.1)), ex.2)

/-- Parse a JSON number at the head of the input (leading zeros are
rejected: the integer part is `0` or `[1-9][0-9]*`). -/
def parse_number (cs : List Char) : Option (PyVal × List Char) :=
  let sp :=
    match cs with
    | '-' :: r => ((['-'] : List Char), r)
    | _ => (([] : List Char), cs)
  match sp.2 with
  | [] => Option.none
  | c :: rest =>
    if c = '0' then parse_number_tail sp.1 ['0'] rest
    else if c.isDigit then
      let p := span_digits sp.2
      parse_number_tail sp.1 p.1 p.2
    else Option.none

mutual

/-- Parse one JSON value (after skipping leading whitespace).  `fuel`
bounds the recursion depth; `json_loads` supplies enough for any input. -/
def parse_val : Nat → List Char → Option (PyVal × List Char)
  | 0, _ => Option.none
  | fuel + 1, cs =>
    match skip_ws cs with
    | '{' :: rest => parse_obj fuel (skip_ws rest)
    | '[' :: rest => parse_arr fuel (skip_ws rest)
    | '"' :: rest =>
      match parse_jstring rest with
      | some p => some (PyVal.str (String.mk p.1), p.2)
      | Option.none => Option.none
    | 't' :: 'r' :: 'u' :: 'e' :: rest => some (PyVal.bool true, rest)
    | 'f' :: 'a' :: 'l' :: 's' :: 'e' :: rest => some (PyVal.bool false, rest)
    | 'n' :: 'u' :: 'l' :: 'l' :: rest => some (PyVal.null, rest)
    | 'N' :: 'a' :: 'N' :: rest => some (PyVal.float "NaN", rest)
    | 'I' :: 'n' :: 'f' :: 'i' :: 'n' :: 'i' :: 't' :: 'y' :: rest =>
      some (PyVal.float "Infinity", rest)
    | '-' :: 'I' :: 'n' :: 'f' :: 'i' :: 'n' :: 'i' :: 't' :: 'y' :: rest =>
      some (PyVal.float "-Infinity", rest)
    | cs2 => parse_number cs2

/-- Parse an object body positioned just after `{` (whitespace skipped):
either an immediate `}` or a member list. -/
def parse_obj : Nat → List Char → Option (PyVal × List Char)
  | 0, _ => Option.none
  | fuel + 1, cs =>
    match cs with
    | '}' :: rest => some (PyVal.dict [], rest)
    | _ => parse_members fuel cs []

/-- Parse one `"key": value` member and the following `,`/`}`.
Duplicate keys keep the last value, as Python dicts do. -/
def parse_members : Nat → List Char → PyDict → Option (PyVal × List Char)
  | 0, _, _ => Option.none
  | fuel + 1, cs, acc =>
    match cs with
    | '"' :: rest =>
      match parse_jstring rest with
      | some kp =>
        match skip_ws kp.2 with
        | ':' :: cs2 =>
          match parse_val fuel (skip_ws cs2) with
          | some vp =>
            let acc2 := dset acc (String.mk kp.1) vp.1
            match skip_ws vp.2 with
            | ',' :: cs4 => parse_members fuel (skip_ws cs4) acc2
            | '}' :: cs4 => some (PyVal.dict acc2, cs4)
            | _ => Option.none
          | Option.none => Option.none
        | _ => Option.none
      | Option.none => Option.none
    | _ => Option.none

/-- Parse an array body positioned just after `[` (whitespace skipped). -/
def parse_arr : Nat → List Char → Option (PyVal × List Char)
  | 0, _ => Option.none
  | fuel + 1, cs =>
    match cs with
    | ']' :: rest => some (PyVal.list [], rest)
    | _ => parse_items fuel cs []

/-- Parse one array element and the following `,`/`]`. -/
def parse_items : Nat → List Char → List PyVal → Option (PyVal × List Char)
  | 0, _, _ => Option.none
  | fuel + 1, cs, acc =>
    match parse_val fuel cs with
    | some vp =>
      match skip_ws vp.2 with
      | ',' :: cs2 => parse_items fuel (skip_ws cs2) (acc ++ [vp.1])
      | ']' :: cs2 => some (PyVal.list (acc ++ [vp.1]), cs2)
      | _ => Option.none
    | Option.none => Option.none

end

/-- Models `json.loads(s)`: parse one JSON document; trailing non-space
input is an error ("Extra data"), as is any parse failure. -/
def json_loads (s : String) : Option PyVal :=
  match parse_val (3 * s.length + 4) s.data with
  | some vr => if (skip_ws vr.2).isEmpty then some vr.1 else Option.none
  | Option.none => Option.none

/-- Embeds `structure_text`'s handling of the backend response text: the
response is stripped, `json.loads` is attempted, and the bare `except`
turns any parse failure into the empty dict `{}`.  Whatever value parses
is returned as-is. -/
def structure_text (response : String) : PyVal :=
  match json_loads (py_strip response) with
  | some data => data
  | Option.none => PyVal.dict []

/-! ## Concrete collaborator instances used by counterexamples and
witnesses -/

/-- A decoder that always fails, as `Image.open` does on undecodable
bytes. -/
def decode_fail (_b : Nat) : Except String Unit :=
  Except.error "UnidentifiedImageError"

/-- A decoder that always succeeds. -/
def decode_ok (_b : Nat) : Except String Unit :=
  Except.ok ()

/-- An OCR model reporting a recognition error via the error flag. -/
def model_run_flag (_i : Unit) : String × Bool :=
  ("", true)

/-- An OCR model succeeding with padded text. -/
def model_run_ok (_i : Unit) : String × Bool :=
  (" Jane Doe ", false)

/-- A two-image OCR assignment: image `0` reads `"x"`, any other image
reads `"y"`. -/
def ocr_two (b : Nat) : String :=
  if b = 0 then "x" else "y"

/-- An all-sentinel complete record. -/
def profile_all_na : ProfileRecord :=
  ⟨"N/A", "N/A", "N/A", "N/A", "N/A", "N/A"⟩

/-- An extractor output whose email and phone are populated. -/
def d_jane : PyDict :=
  [("email", PyVal.str "jane@x.com"), ("phone", PyVal.str "+1 555-123-9999")]

/-- An extractor output whose email and phone are present but empty
strings (falsy, yet not the sentinel). -/
def d_empty : PyDict :=
  [("email", PyVal.str ""), ("phone", PyVal.str "")]

/-! ## Helper lemmas -/

theorem string_data_append (s t : String) : (s ++ t).data = s.data ++ t.data := by
  cases s
  cases t
  rfl

theorem string_eq_of_data {s t : String} (h : s.data = t.data) : s = t := by
  cases s
  cases t
  exact congrArg String.mk h

theorem dget?_dset_self (d : PyDict) (k : String) (v : PyVal) :
    dget? (dset d k v) k = some v := by
  induction d with
  | nil => simp [dset, dget?]
  | cons hd tl ih =>
    obtain ⟨k', v'⟩ := hd
    by_cases h : k' = k
    · simp [dset, dget?, h]
    · simp [dset, dget?, h, ih]

theorem dget?_dset_ne (d : PyDict) (k k' : String) (v : PyVal) (h : k ≠ k') :
    dget? (dset d k v) k' = dget? d k' := by
  induction d with
  | nil => simp [dset, dget?, h]
  | cons hd tl ih =>
    obtain ⟨k2, v2⟩ := hd
    by_cases h2 : k2 = k
    · subst h2
      simp [dset, dget?, h]
    · simp [dset, dget?, h2, ih]

theorem dget?_norm_step_ne (d : PyDict) (k k' : String) (h : k' ≠ k) :
    dget? (norm_step d k') k = dget? d k := by
  unfold norm_step
  split
  · exact dget?_dset_ne d k' k _ h
  · rfl

theorem dget?_norm_step_truthy (d : PyDict) (k k' : String) (v : PyVal)
    (hv : dget? d k = some v) (ht : falsy v = false) :
    dget? (norm_step d k') k = some v := by
  by_cases h : k' = k
  · subst h
    have hf : get_falsy d k' = false := by
      unfold get_falsy
      rw [hv]
      exact ht
    unfold norm_step
    rw [hf]
    simpa using hv
  · rw [dget?_norm_step_ne d k k' h]
    exact hv

theorem foldl_norm_preserve_truthy (ks : List String) (d : PyDict) (k : String) (v : PyVal)
    (hv : dget? d k = some v) (ht : falsy v = false) :
    dget? (ks.foldl norm_step d) k = some v := by
  induction ks generalizing d with
  | nil => simpa using hv
  | cons k0 ks ih =>
    simp only [List.foldl_cons]
    exact ih (norm_step d k0) (dget?_norm_step_truthy d k k0 v hv ht)

theorem norm_step_self_truthy (d : PyDict) (k : String) :
    truthy_field (norm_step d k) k = true := by
  unfold norm_step
  cases hf : get_falsy d k with
  | true =>
    simp only [hf, if_true]
    simp [truthy_field, dget?_dset_self, falsy]
  | false =>
    simp only [hf, Bool.false_eq_true, if_false]
    unfold get_falsy at hf
    unfold truthy_field
    cases hg : dget? d k with
    | none => simp [hg] at hf
    | some v =>
      simp only [hg] at hf
      simp [hg, hf]

theorem foldl_norm_truthy (ks : List String) (d : PyDict) (k : String) (hk : k ∈ ks) :
    truthy_field (ks.foldl norm_step d) k = true := by
  induction ks generalizing d with
  | nil => cases hk
  | cons k0 ks ih =>
    simp only [List.foldl_cons]
    by_cases h : k ∈ ks
    · exact ih (norm_step d k0) h
    · have hk0 : k = k0 := by
        rcases List.mem_cons.mp hk with h1 | h1
        · exact h1
        · exact absurd h1 h
      subst hk0
      have h1 : truthy_field (norm_step d k) k = true := norm_step_self_truthy d k
      unfold truthy_field at h1
      cases hg : dget? (norm_step d k) k with
      | none =>
        rw [hg] at h1
        simp at h1
      | some v =>
        rw [hg] at h1
        simp only [Bool.not_eq_true'] at h1
        have h2 := foldl_norm_preserve_truthy ks (norm_step d k) k v hg h1
        unfold truthy_field
        rw [h2]
        simp [h1]

theorem foldl_norm_falsy_to_na (ks : List String) (d : PyDict) (k : String)
    (hk : k ∈ ks) (hf : get_falsy d k = true) :
    dget? (ks.foldl norm_step d) k = some (PyVal.str "N/A") := by
  induction ks generalizing d with
  | nil => cases hk
  | cons k0 ks ih =>
    simp only [List.foldl_cons]
    by_cases h : k = k0
    · subst h
      have h1 : dget? (norm_step d k) k = some (PyVal.str "N/A") := by
        unfold norm_step
        rw [hf]
        simp [dget?_dset_self]
      exact foldl_norm_preserve_truthy ks _ k _ h1 rfl
    · have h2 : k ∈ ks := by
        rcases List.mem_cons.mp hk with h1 | h1
        · exact absurd h1 h
        · exact h1
      have hf2 : get_falsy (norm_step d k0) k = true := by
        unfold get_falsy
        rw [dget?_norm_step_ne d k k0 (fun he => h he.symm)]
        unfold get_falsy at hf
        exact hf
      exact ih (norm_step d k0) h2 hf2

theorem dget?_email_phase_ne (d : PyDict) (t : String) (k : String) (h : k ≠ "email") :
    dget? (email_phase d t) k = dget? d k := by
  unfold email_phase
  cases hc : get_is_na d "email" with
  | true =>
    simp only [hc, if_true]
    cases email_search t with
    | none => rfl
    | some m => exact dget?_dset_ne d "email" k _ (fun he => h he.symm)
  | false => simp [hc]

theorem dget?_phone_phase_ne (d : PyDict) (t : String) (k : String) (h : k ≠ "phone") :
    dget? (phone_phase d t) k = dget? d k := by
  unfold phone_phase
  cases hc : get_is_na d "phone" with
  | true =>
    simp only [hc, if_true]
    cases phone_search t with
    | none => rfl
    | some m => exact dget?_dset_ne d "phone" k _ (fun he => h he.symm)
  | false => simp [hc]

theorem email_phase_not_na (d : PyDict) (t : String) (v : PyVal)
    (hv : dget? d "email" = some v) (hna : is_na v = false) :
    email_phase d t = d := by
  unfold email_phase
  have h : get_is_na d "email" = false := by
    unfold get_is_na
    rw [hv]
    exact hna
  simp [h]

theorem phone_phase_not_na (d : PyDict) (t : String) (v : PyVal)
    (hv : dget? d "phone" = some v) (hna : is_na v = false) :
    phone_phase d t = d := by
  unfold phone_phase
  have h : get_is_na d "phone" = false := by
    unfold get_is_na
    rw [hv]
    exact hna
  simp [h]

theorem phone_phase_fill (d : PyDict) (t : String) (m : String)
    (hna : get_is_na d "phone" = true) (hs : phone_search t = some m) :
    phone_phase d t = dset d "phone" (PyVal.str m) := by
  unfold phone_phase
  simp [hna, hs]

theorem collator_arrives_some {ε : Type} (is : List ε) (l : List ε) (f : List (List ε)) :
    (is.map CollatorEv.arrive).foldl collator_step ⟨some l, f⟩ = ⟨some (l ++ is), f⟩ := by
  induction is generalizing l with
  | nil => simp
  | cons e is ih =>
    simp only [List.map_cons, List.foldl_cons]
    rw [show collator_step (⟨some l, f⟩ : CollatorState ε) (.arrive e) = ⟨some (l ++ [e]), f⟩ from rfl]
    rw [ih]
    simp

theorem collator_checks_some_nil {ε : Type} (n : Nat) (f : List (List ε)) :
    (List.replicate n CollatorEv.check).foldl collator_step ⟨some [], f⟩
      = (⟨some [], f⟩ : CollatorState ε) := by
  induction n with
  | zero => rfl
  | succ n ih =>
    rw [List.replicate_succ, List.foldl_cons]
    rw [show collator_step (⟨some [], f⟩ : CollatorState ε) .check = ⟨some [], f⟩ from rfl]
    exact ih

theorem collator_checks_none {ε : Type} (n : Nat) (f : List (List ε)) :
    (List.replicate n CollatorEv.check).foldl collator_step ⟨Option.none, f⟩
      = (⟨if n = 0 then Option.none else some [], f⟩ : CollatorState ε) := by
  cases n with
  | zero => rfl
  | succ n =>
    rw [List.replicate_succ, List.foldl_cons]
    rw [show collator_step (⟨Option.none, f⟩ : CollatorState ε) .check = ⟨some [], f⟩ from rfl]
    rw [collator_checks_some_nil]
    simp

theorem collator_run_shape {ε : Type} (e : ε) (is : List ε) (m : Nat) :
    collator_run ((e :: is).map CollatorEv.arrive ++ List.replicate (m + 1) CollatorEv.check)
      = ⟨if m = 0 then Option.none else some [], [e :: is]⟩ := by
  unfold collator_run
  rw [List.foldl_append]
  simp only [List.map_cons, List.foldl_cons]
  rw [show collator_step (⟨Option.none, []⟩ : CollatorState ε) (.arrive e) = ⟨some [e], []⟩ from rfl]
  rw [collator_arrives_some]
  rw [List.replicate_succ, List.foldl_cons]
  rw [show collator_step (⟨some ([e] ++ is), []⟩ : CollatorState ε) .check
      = ⟨Option.none, [e :: is]⟩ from rfl]
  rw [collator_checks_none]

theorem phone_core_ne_nil (cs : List Char) (r : List Char) (h : phone_core cs = some r) :
    r ≠ [] := by
  unfold phone_core at h
  split at h
  · exact absurd h (by simp)
  · split at h
    · split at h
      · split at h
        · simp only [Option.some.injEq] at h
          rw [← h]
          simp
        · exact absurd h (by simp)
      · exact absurd h (by simp)
    · exact absurd h (by simp)

theorem phone_match_at_ne_nil (cs : List Char) (r : List Char)
    (h : phone_match_at cs = some r) : r ≠ [] := by
  unfold phone_match_at at h
  split at h
  · split at h
    · simp only [Option.some.injEq] at h
      rw [← h]
      simp
    · exact phone_core_ne_nil _ _ h
  · exact phone_core_ne_nil _ _ h

theorem phone_search_core_ne_nil (cs : List Char) (r : List Char)
    (h : phone_search_core cs = some r) : r ≠ [] := by
  induction cs with
  | nil => exact absurd h (by simp [phone_search_core])
  | cons c rest ih =>
    unfold phone_search_core at h
    split at h
    · simp only [Option.some.injEq] at h
      rw [← h]
      exact phone_match_at_ne_nil _ _ (by assumption)
    · exact ih h

theorem phone_search_ne_empty (text m : String) (h : phone_search text = some m) :
    m ≠ "" := by
  unfold phone_search at h
  cases hc : phone_search_core text.data with
  | none =>
    rw [hc] at h
    exact absurd h (by simp)
  | some r =>
    rw [hc] at h
    simp only [Option.map_some', Option.some.injEq] at h
    intro he
    apply phone_search_core_ne_nil _ _ hc
    have h2 : (String.mk r).data = String.data "" := by rw [h, he]
    simpa using h2

/-! ## Claim theorems -/

/-- C1: for every N concurrent photo arrivals sharing one group_key, all
within overlapping debounce windows (modelled as every arrival event
preceding every completion-check event), the finalize sequence executes
exactly once for that key: the finalize history after the trace is
exactly one finalize, consuming the full entry list in arrival order;
every other checker performs no finalize. -/
theorem collator_finalizes_once {ε : Type} (is : List ε) (n : Nat)
    (h1 : is ≠ []) (h2 : 0 < n) :
    (collator_run (is.map CollatorEv.arrive ++ List.replicate n CollatorEv.check)).finals
      = [is] := by
  obtain ⟨e, is', rfl⟩ := List.exists_cons_of_ne_nil h1
  obtain ⟨m, rfl⟩ := Nat.exists_eq_add_of_lt h2
  rw [show 0 + m + 1 = m + 1 by omega]
  rw [collator_run_shape]

/-- Witness for C1 at two arrivals and two checks. -/
theorem collator_finalizes_once_witness :
    ([10, 20] : List Nat) ≠ [] ∧ 0 < 2 ∧
    (collator_run ([10, 20].map CollatorEv.arrive
        ++ List.replicate 2 CollatorEv.check)).finals = [[10, 20]] :=
  ⟨by decide, by decide, collator_finalizes_once [10, 20] 2 (by decide) (by decide)⟩

/-- C2: for every candidate record (any dict, including empty) and every
raw text, the record returned by the rescue pass has all six fields
present with a truthy (non-falsy, hence non-empty) value: each is either
an extracted value or the sentinel, never absent, empty or falsy. -/
theorem regex_rescue_complete (data : PyDict) (text : String) :
    rescue_fields.all (truthy_field (regex_rescue data text)) = true := by
  rw [List.all_eq_true]
  intro k hk
  unfold regex_rescue
  exact foldl_norm_truthy rescue_fields _ k hk

/-- C3 counterexample: `run_ocr` has no exception handler around the
decode step, so a decode failure propagates out of `run_ocr` as an
exception instead of yielding the empty string — the claim that any
decode error yields `""` and that no exception propagates is false. -/
theorem run_ocr_decode_error_cex :
    run_ocr decode_fail model_run_flag 0 = Except.error "UnidentifiedImageError"
  ∧ run_ocr decode_fail model_run_flag 0 ≠ Except.ok "" := by
  constructor
  · rfl
  · intro h
    exact Except.noConfusion
      (show (Except.error "UnidentifiedImageError" : Except String String)
          = Except.ok "" from h)

/-- C3 amended: recognition errors reported through the OCR model's
error flag yield the empty string, and a clean recognition yields the
stripped output; but a decode error is not caught and propagates out of
`run_ocr`. -/
theorem run_ocr_error_semantics {β γ : Type} (decode : β → Except String γ)
    (model_run : γ → String × Bool) (b : β) :
    (∀ e, decode b = Except.error e →
      run_ocr decode model_run b = Except.error e)
  ∧ (∀ img, decode b = Except.ok img → (model_run img).2 = true →
      run_ocr decode model_run b = Except.ok "")
  ∧ (∀ img, decode b = Except.ok img → (model_run img).2 = false →
      run_ocr decode model_run b = Except.ok (py_strip (model_run img).1)) := by
  refine ⟨?_, ?_, ?_⟩
  · intro e h
    unfold run_ocr
    rw [h]
  · intro img h hflag
    unfold run_ocr
    rw [h]
    simp [hflag]
  · intro img h hflag
    unfold run_ocr
    rw [h]
    simp [hflag]

/-- Witness for C3's amended theorem: a failing decode propagates, a
flagged recognition yields `""`, a clean recognition yields stripped
text. -/
theorem run_ocr_error_semantics_witness :
    (decode_fail 0 = Except.error "UnidentifiedImageError" ∧
      run_ocr decode_fail model_run_flag 0 = Except.error "UnidentifiedImageError") ∧
    (decode_ok 0 = Except.ok () ∧ (model_run_flag ()).2 = true ∧
      run_ocr decode_ok model_run_flag 0 = Except.ok "") ∧
    (decode_ok 0 = Except.ok () ∧ (model_run_ok ()).2 = false ∧
      run_ocr decode_ok model_run_ok 0 = Except.ok "Jane Doe") :=
  ⟨⟨rfl, (run_ocr_error_semantics decode_fail model_run_flag 0).1 _ rfl⟩,
    ⟨rfl, rfl, (run_ocr_error_semantics decode_ok model_run_flag 0).2.1 () rfl rfl⟩,
    ⟨rfl, rfl, (run_ocr_error_semantics decode_ok model_run_ok 0).2.2 () rfl rfl⟩⟩

/-- C4 counterexample: the text produced by `format_reply` does not match
the spec's template with header line `📌 Extracted Profile` — the code
emits Markdown bold markers around the header. -/
theorem format_reply_header_cex :
    format_reply profile_all_na
      ≠ spec_reply_template "📌 Extracted Profile" profile_all_na := by
  decide

/-- C4 amended: for every complete record, `format_reply` produces
exactly the fixed template whose header line is `📌 **Extracted
Profile**` (the header carries Markdown bold markers), then a blank line,
then the six labeled lines holding the record's values. -/
theorem format_reply_bold_template (d : ProfileRecord) :
    format_reply d = spec_reply_template "📌 **Extracted Profile**" d := by
  unfold format_reply spec_reply_template
  rw [show ("📌 **Extracted Profile**" ++ "\n\n" : String)
      = "📌 **Extracted Profile**\n\n" from rfl]

/-- C5 counterexample: a candidate whose email is the empty string — a
value that is not the sentinel `"N/A"` — does not keep that value: the
normalization pass coerces it to `"N/A"`, so rescue does not leave every
non-sentinel field value unchanged. -/
theorem rescue_override_empty_email_cex :
    dget? [("email", PyVal.str "")] "email" = some (PyVal.str "")
  ∧ PyVal.str "" ≠ PyVal.str "N/A"
  ∧ dget? (regex_rescue [("email", PyVal.str "")] "reach other@x.com") "email"
      = some (PyVal.str "N/A")
  ∧ some (PyVal.str "N/A") ≠ some (PyVal.str "") := by
  refine ⟨rfl, ?_, rfl, ?_⟩
  · intro h
    injection h with h2
    exact absurd h2 (by decide)
  · intro h
    injection h with h2
    injection h2 with h3
    exact absurd h3 (by decide)

/-- C5 amended: rescue is strictly additive for populated fields: for
every candidate record whose email (respectively phone) holds a truthy
value other than the sentinel `"N/A"` — e.g. `jane@x.com` — that field's
value is unchanged, even when the raw text contains a different matching
substring.  (A present-but-falsy value such as `""` is instead coerced
to `"N/A"` by the normalization pass.) -/
theorem rescue_non_override (data : PyDict) (text : String) :
    (∀ v, dget? data "email" = some v → is_na v = false → falsy v = false →
      dget? (regex_rescue data text) "email" = some v)
  ∧ (∀ w, dget? data "phone" = some w → is_na w = false → falsy w = false →
      dget? (regex_rescue data text) "phone" = some w) := by
  constructor
  · intro v hv hna hf
    unfold regex_rescue
    rw [email_phase_not_na data text v hv hna]
    have h2 : dget? (phone_phase data text) "email" = some v := by
      rw [dget?_phone_phase_ne data text "email" (by decide)]
      exact hv
    exact foldl_norm_preserve_truthy rescue_fields _ "email" v h2 hf
  · intro w hw hna hf
    unfold regex_rescue
    have h1 : dget? (email_phase data text) "phone" = some w := by
      rw [dget?_email_phase_ne data text "phone" (by decide)]
      exact hw
    rw [phone_phase_not_na _ text w h1 hna]
    exact foldl_norm_preserve_truthy rescue_fields _ "phone" w h1 hf

/-- Witness for C5's amended theorem: a populated email and phone both
survive rescue unchanged although the raw text holds a different email
and a different phone. -/
theorem rescue_non_override_witness :
    (dget? d_jane "email" = some (PyVal.str "jane@x.com") ∧
      is_na (PyVal.str "jane@x.com") = false ∧
      falsy (PyVal.str "jane@x.com") = false ∧
      dget? (regex_rescue d_jane "contact other@y.org or 022 1234 5678") "email"
        = some (PyVal.str "jane@x.com")) ∧
    (dget? d_jane "phone" = some (PyVal.str "+1 555-123-9999") ∧
      is_na (PyVal.str "+1 555-123-9999") = false ∧
      falsy (PyVal.str "+1 555-123-9999") = false ∧
      dget? (regex_rescue d_jane "contact other@y.org or 022 1234 5678") "phone"
        = some (PyVal.str "+1 555-123-9999")) :=
  ⟨⟨rfl, rfl, rfl,
      (rescue_non_override d_jane "contact other@y.org or 022 1234 5678").1 _ rfl rfl rfl⟩,
    ⟨rfl, rfl, rfl,
      (rescue_non_override d_jane "contact other@y.org or 022 1234 5678").2 _ rfl rfl rfl⟩⟩

/-- C6 counterexample: the merge loop prepends the separator to every
image's text, so the merged text for images A then B is `"\nx\ny"` when
OCR(A) = `"x"` and OCR(B) = `"y"`, and there is no separator string for
which it equals `OCR(A) ++ sep ++ OCR(B)`. -/
theorem merge_leading_separator_cex :
    merge_loop ocr_two [(0, 0), (1, 1)] = "\nx\ny"
  ∧ ¬ ∃ sep : String,
      merge_loop ocr_two [(0, 0), (1, 1)] = ocr_two 0 ++ sep ++ ocr_two 1 := by
  constructor
  · rfl
  · rintro ⟨sep, h⟩
    have h2 : ("\nx\ny" : String) = "x" ++ sep ++ "y" := h
    have h3 := congrArg String.data h2
    rw [string_data_append, string_data_append] at h3
    have h4 : ('\n' :: 'x' :: '\n' :: 'y' :: []) = ('x' :: []) ++ sep.data ++ ('y' :: []) := h3
    simp only [List.cons_append, List.nil_append] at h4
    injection h4 with h5 _
    exact absurd h5 (by decide)

/-- C6 amended: for a submission whose entries arrived in order A then B,
the merged text equals `"\n" ++ OCR(A) ++ "\n" ++ OCR(B)`: the two
images' texts appear in arrival order with the separator between them,
but every image's text (the first included) is preceded by the
separator, so the merged text does not equal `OCR(A) ++ sep ++ OCR(B)`. -/
theorem merge_order_and_separator {μ β : Type} (ocr : β → String) (a b : μ × β) :
    merge_loop ocr [a, b] = "\n" ++ ocr a.2 ++ "\n" ++ ocr b.2 := by
  unfold merge_loop
  simp only [List.foldl_cons, List.foldl_nil]
  rw [show ("" ++ "\n" : String) = "\n" from rfl]

/-- C7 counterexample: the backend response `"42"` is valid JSON but not
parseable as the schema (it is not an object at all); `structure_text`
returns the parsed number `42` as-is instead of an empty record. -/
theorem structure_text_non_schema_cex :
    structure_text "42" = PyVal.int 42 ∧ structure_text "42" ≠ PyVal.dict [] := by
  constructor
  · rfl
  · intro h
    exact PyVal.noConfusion (show PyVal.int 42 = PyVal.dict [] from h)

/-- C7 amended: if the stripped response is not parseable as JSON at all,
`structure_text` returns the empty record `{}` (the bare `except` keeps
any parse error from crossing the boundary); but a response that parses
as JSON is returned as-is even when it is not a schema object. -/
theorem structure_text_json_semantics :
    (∀ s : String, json_loads (py_strip s) = Option.none →
      structure_text s = PyVal.dict [])
  ∧ (∀ (s : String) (v : PyVal), json_loads (py_strip s) = some v →
      structure_text s = v) := by
  constructor
  · intro s h
    unfold structure_text
    rw [h]
  · intro s v h
    unfold structure_text
    rw [h]

/-- Witness for C7's amended theorem: prose fails to parse and yields
`{}`; a JSON array parses and is returned as-is. -/
theorem structure_text_json_semantics_witness :
    (json_loads (py_strip "not json") = Option.none ∧
      structure_text "not json" = PyVal.dict []) ∧
    (json_loads (py_strip "[3]") = some (PyVal.list [PyVal.int 3]) ∧
      structure_text "[3]" = PyVal.list [PyVal.int 3]) :=
  ⟨⟨rfl, structure_text_json_semantics.1 "not json" rfl⟩,
    ⟨rfl, structure_text_json_semantics.2 "[3]" (PyVal.list [PyVal.int 3]) rfl⟩⟩

/-- C8: for every candidate record whose phone is the sentinel `"N/A"`
and every raw text on which `PHONE_RE.search` finds a (leftmost-first)
match, the rescued record's phone is exactly that matched substring. -/
theorem rescue_phone_fill (data : PyDict) (text : String) (m : String)
    (hp : dget? data "phone" = some (PyVal.str "N/A"))
    (hs : phone_search text = some m) :
    dget? (regex_rescue data text) "phone" = some (PyVal.str m) := by
  unfold regex_rescue
  have h1 : dget? (email_phase data text) "phone" = some (PyVal.str "N/A") := by
    rw [dget?_email_phase_ne data text "phone" (by decide)]
    exact hp
  have hna : get_is_na (email_phase data text) "phone" = true := by
    unfold get_is_na
    rw [h1]
    rfl
  rw [phone_phase_fill _ text m hna hs]
  have h3 : dget? (dset (email_phase data text) "phone" (PyVal.str m)) "phone"
      = some (PyVal.str m) := dget?_dset_self _ _ _
  have hm : falsy (PyVal.str m) = false := by
    unfold falsy
    exact decide_eq_false (phone_search_ne_empty text m hs)
  exact foldl_norm_preserve_truthy rescue_fields _ "phone" _ h3 hm

/-- Witness for C8 at the spec's example text: the permissive phone
pattern matches `+1 555-123-4567` and rescue fills it in. -/
theorem rescue_phone_fill_witness :
    dget? [("phone", PyVal.str "N/A")] "phone" = some (PyVal.str "N/A") ∧
    phone_search "call me at +1 555-123-4567" = some "+1 555-123-4567" ∧
    dget? (regex_rescue [("phone", PyVal.str "N/A")] "call me at +1 555-123-4567") "phone"
      = some (PyVal.str "+1 555-123-4567") :=
  ⟨rfl, by decide,
    rescue_phone_fill [("phone", PyVal.str "N/A")] "call me at +1 555-123-4567"
      "+1 555-123-4567" rfl (by decide)⟩

/-- C9 counterexample: with two arrivals and their two completion checks,
the submission is consumed exactly once, yet after all checks the key is
still present in the map (holding the empty list) — the late checker's
defaultdict length lookup re-created it — so closed keys do linger. -/
theorem collator_key_lingers_cex :
    (collator_run [CollatorEv.arrive 10, CollatorEv.arrive 20,
        CollatorEv.check, CollatorEv.check]).finals = [[10, 20]]
  ∧ (collator_run [CollatorEv.arrive 10, CollatorEv.arrive 20,
        CollatorEv.check, CollatorEv.check]).buf ≠ Option.none := by
  constructor
  · rfl
  · intro h
    exact Option.noConfusion
      (show (some ([] : List Nat) : Option (List Nat)) = Option.none from h)

/-- C9 amended: once a submission is consumed, no entries linger: after
all completion checks have run the key's buffer holds no entries — the
key is absent from the map when exactly one check ran, and is re-created
mapped to the empty list (by later checks' defaultdict lookups) when two
or more checks ran. -/
theorem collator_buffer_after_checks {ε : Type} (is : List ε) (n : Nat)
    (h1 : is ≠ []) (h2 : 0 < n) :
    (collator_run (is.map CollatorEv.arrive ++ List.replicate n CollatorEv.check)).buf
      = if n = 1 then Option.none else some [] := by
  obtain ⟨e, is', rfl⟩ := List.exists_cons_of_ne_nil h1
  obtain ⟨m, rfl⟩ := Nat.exists_eq_add_of_lt h2
  rw [show 0 + m + 1 = m + 1 by omega]
  rw [collator_run_shape]
  by_cases hm : m = 0
  · subst hm
    rfl
  · have hne : m + 1 ≠ 1 := by omega
    show (if m = 0 then Option.none else some []) = _
    simp [hm, hne]

/-- Witness for C9's amended theorem at one check (key absent) and at
three checks (key lingers holding the empty list). -/
theorem collator_buffer_after_checks_witness :
    (([7] : List Nat) ≠ [] ∧ 0 < 1 ∧
      (collator_run ([7].map CollatorEv.arrive
          ++ List.replicate 1 CollatorEv.check)).buf
        = if 1 = 1 then Option.none else some []) ∧
    (0 < 3 ∧
      (collator_run ([7].map CollatorEv.arrive
          ++ List.replicate 3 CollatorEv.check)).buf
        = if 3 = 1 then Option.none else some []) :=
  ⟨⟨by decide, by decide, collator_buffer_after_checks [7] 1 (by decide) (by decide)⟩,
    ⟨by decide, collator_buffer_after_checks [7] 3 (by decide) (by decide)⟩⟩

/-- C10: for a candidate record whose email (respectively phone) is
present but equal to the empty string — falsy yet not the sentinel —
rescue does not fill that field from the raw text (the sentinel test
`get(k, "N/A") == "N/A"` is false), and the normalization pass then
coerces it to `"N/A"`, whatever matching substrings the text holds. -/
theorem rescue_empty_string_coerced (data : PyDict) (text : String) :
    (dget? data "email" = some (PyVal.str "") →
      dget? (regex_rescue data text) "email" = some (PyVal.str "N/A"))
  ∧ (dget? data "phone" = some (PyVal.str "") →
      dget? (regex_rescue data text) "phone" = some (PyVal.str "N/A")) := by
  constructor
  · intro hv
    unfold regex_rescue
    rw [email_phase_not_na data text _ hv rfl]
    have h2 : dget? (phone_phase data text) "email" = some (PyVal.str "") := by
      rw [dget?_phone_phase_ne data text "email" (by decide)]
      exact hv
    have h3 : get_falsy (phone_phase data text) "email" = true := by
      unfold get_falsy
      rw [h2]
      rfl
    exact foldl_norm_falsy_to_na rescue_fields _ "email" (by decide) h3
  · intro hv
    unfold regex_rescue
    have h1 : dget? (email_phase data text) "phone" = some (PyVal.str "") := by
      rw [dget?_email_phase_ne data text "phone" (by decide)]
      exact hv
    rw [phone_phase_not_na _ text _ h1 rfl]
    have h3 : get_falsy (email_phase data text) "phone" = true := by
      unfold get_falsy
      rw [h1]
      rfl
    exact foldl_norm_falsy_to_na rescue_fields _ "phone" (by decide) h3

/-- Witness for C10: both fields empty strings, raw text containing both
an email and a phone match; both end as the sentinel. -/
theorem rescue_empty_string_coerced_witness :
    (dget? d_empty "email" = some (PyVal.str "") ∧
      dget? (regex_rescue d_empty "mail a@b.co or +1 555-123-4567") "email"
        = some (PyVal.str "N/A")) ∧
    (dget? d_empty "phone" = some (PyVal.str "") ∧
      dget? (regex_rescue d_empty "mail a@b.co or +1 555-123-4567") "phone"
        = some (PyVal.str "N/A")) :=
  ⟨⟨rfl, (rescue_empty_string_coerced d_empty "mail a@b.co or +1 555-123-4567").1 rfl⟩,
    ⟨rfl, (rescue_empty_string_coerced d_empty "mail a@b.co or +1 555-123-4567").2 rfl⟩⟩
